import Mathlib

/-!
# Verification of the `cretonne` meta build driver

Shallow embedding of `src/lib/cretonne/meta/build.py`, the second-level
build script that drives the table generators. The script:

1. parses a single command-line option `--out-dir` (optional, so `out_dir`
   may be `None`);
2. resolves the ISA registry via `isa.all_isas()`;
3. calls, in order, `gen_types.generate(out_dir)`,
   `gen_instr.generate(isas, out_dir)`, `gen_settings.generate(isas, out_dir)`,
   `gen_encoding.generate(isas, out_dir)`, `gen_build_deps.generate()`.

The generator modules themselves are not part of the repository snapshot
(only `build.py` is), so each stage is an abstract implementation: a
function of exactly the arguments the driver passes it, which either
fails with an error (a Python exception propagating to the driver) or
succeeds, producing the names of the artifacts it writes to the output
sink. Because Python exceptions abort the script, a failing call ends the
run: the embedding threads this explicitly.
-/

set_option autoImplicit false

namespace Cretonne

/-- Identifier of a target ISA (e.g. `"riscv"`). -/
abbrev IsaId := String

/-- The error taxonomy of the spec (section 7); any of these surfaces to
the driver as a propagating exception. -/
inductive GenError where
  | definitionError (msg : String)
  | configurationError (msg : String)
  | typeInferenceError (msg : String)
  | settingsCycleError (msg : String)
  | overlapError (msg : String)
  | legalizationCycleError (msg : String)
  | unencodableError (msg : String)
  deriving DecidableEq, Repr

/-- The six pipeline stages invoked by `build.py`, in source order. -/
inductive Stage where
  | isaRegistry
  | genTypes
  | genInstr
  | genSettings
  | genEncoding
  | genBuildDeps
  deriving DecidableEq, Repr

/-- The stage sequence hard-coded in `build.py` lines 20-26. -/
def pipelineOrder : List Stage :=
  [.isaRegistry, .genTypes, .genInstr, .genSettings, .genEncoding, .genBuildDeps]

/-- One stage invocation by the driver, recording exactly which arguments
the driver passed: `isasArg = some l` iff the resolved ISA list `l` was
passed, `outDirArg = some d` iff the `out_dir` value `d` (itself possibly
`none`, i.e. Python `None`) was passed. -/
structure StageCall where
  stage : Stage
  isasArg : Option (List IsaId)
  outDirArg : Option (Option String)
  deriving DecidableEq, Repr

/-- Abstract implementations of the generator modules imported by
`build.py`. Each field has the call signature the driver uses. A stage
either raises (`Except.error`) or returns the list of artifact names it
wrote to the output sink (the spec, section 2: stages are side-effect-free
except for writing to the output sink; a stage's own writes are treated
atomically at stage granularity). -/
structure StageImpls where
  all_isas : Except GenError (List IsaId)
  gen_types : Option String → Except GenError (List String)
  gen_instr : List IsaId → Option String → Except GenError (List String)
  gen_settings : List IsaId → Option String → Except GenError (List String)
  gen_encoding : List IsaId → Option String → Except GenError (List String)
  gen_build_deps : Except GenError (List String)

instance : DecidableEq (Except GenError Unit) := fun a b =>
  match a, b with
  | .ok (), .ok () => .isTrue rfl
  | .ok (), .error _ => .isFalse (by intro h; exact Except.noConfusion h)
  | .error _, .ok () => .isFalse (by intro h; exact Except.noConfusion h)
  | .error x, .error y =>
    if h : x = y then .isTrue (by rw [h])
    else .isFalse (by intro hc; injection hc; contradiction)

/-- Outcome of one driver run: the stage invocations in order, the sink
writes that actually happened (tagged with the stage that made them), and
the final result. -/
structure RunResult where
  trace : List StageCall
  writes : List (Stage × String)
  result : Except GenError Unit
  deriving DecidableEq, Repr

/-- The driver body of `build.py` (lines 20-26): resolve `isa.all_isas()`,
then call the four generators and `gen_build_deps.generate()` in sequence.
There is no exception handling and no rollback: the first error aborts the
remaining calls, and writes already made by completed stages stay. -/
def build (impls : StageImpls) (out_dir : Option String) : RunResult :=
  let c0 : StageCall := ⟨.isaRegistry, none, none⟩
  match impls.all_isas with
  | .error e => ⟨[c0], [], .error e⟩
  | .ok isas =>
    let c1 : StageCall := ⟨.genTypes, none, some out_dir⟩
    match impls.gen_types out_dir with
    | .error e => ⟨[c0, c1], [], .error e⟩
    | .ok w1 =>
      let c2 : StageCall := ⟨.genInstr, some isas, some out_dir⟩
      match impls.gen_instr isas out_dir with
      | .error e => ⟨[c0, c1, c2], w1.map (Stage.genTypes, ·), .error e⟩
      | .ok w2 =>
        let c3 : StageCall := ⟨.genSettings, some isas, some out_dir⟩
        match impls.gen_settings isas out_dir with
        | .error e =>
          ⟨[c0, c1, c2, c3],
           w1.map (Stage.genTypes, ·) ++ w2.map (Stage.genInstr, ·), .error e⟩
        | .ok w3 =>
          let c4 : StageCall := ⟨.genEncoding, some isas, some out_dir⟩
          match impls.gen_encoding isas out_dir with
          | .error e =>
            ⟨[c0, c1, c2, c3, c4],
             w1.map (Stage.genTypes, ·) ++ w2.map (Stage.genInstr, ·) ++
               w3.map (Stage.genSettings, ·), .error e⟩
          | .ok w4 =>
            let c5 : StageCall := ⟨.genBuildDeps, none, none⟩
            match impls.gen_build_deps with
            | .error e =>
              ⟨[c0, c1, c2, c3, c4, c5],
               w1.map (Stage.genTypes, ·) ++ w2.map (Stage.genInstr, ·) ++
                 w3.map (Stage.genSettings, ·) ++ w4.map (Stage.genEncoding, ·),
               .error e⟩
            | .ok w5 =>
              ⟨[c0, c1, c2, c3, c4, c5],
               w1.map (Stage.genTypes, ·) ++ w2.map (Stage.genInstr, ·) ++
                 w3.map (Stage.genSettings, ·) ++ w4.map (Stage.genEncoding, ·) ++
                 w5.map (Stage.genBuildDeps, ·),
               .ok ()⟩

/-- The option strings registered on the argument parser in `build.py`
(line 15): a single `add_argument` call, declaring `--out-dir`. -/
def parserOptions : List String := ["--out-dir"]

/-- `argparse` semantics of the parser built in `build.py` for the declared
option: scan `argv`; each `--out-dir VALUE` pair sets the value (the last
occurrence wins), a trailing `--out-dir` with no value is a usage error, any
other token is unrecognized (a usage error); if the option never occurs the
result is `none` (Python `None`, argparse's default). The accumulator is the
value seen so far. -/
def parseArgs : List String → Option String → Except String (Option String)
  | [], acc => .ok acc
  | ["--out-dir"], _ => .error "argument --out-dir: expected one argument"
  | "--out-dir" :: v :: rest, _ => parseArgs rest (some v)
  | a :: _, _ => .error ("unrecognized arguments: " ++ a)

/-- Process exit code of the script for a run result: a Python script that
finishes exits 0, an uncaught exception makes the interpreter exit
non-zero (1). -/
def exitCode (r : RunResult) : Nat :=
  match r.result with
  | .ok _ => 0
  | .error _ => 1

/-- Modelled from the spec: the body of `isa.all_isas` is not under `src/`
(`build.py` only imports and calls it). Section 4.2: the registry "exposes
the ordered list of target ISA identifiers participating in generation" and
"fails with a ConfigurationError if the declared ISA list is empty ... or
contains duplicate identifiers". -/
def all_isas (declared : List IsaId) : Except GenError (List IsaId) :=
  if declared = [] then
    .error (.configurationError "ISA list is empty")
  else if declared.Nodup then
    .ok declared
  else
    .error (.configurationError "duplicate ISA identifier")

/-- An all-succeeding set of stage implementations, used to exercise the
driver on a complete run. -/
def okImpls : StageImpls where
  all_isas := .ok ["riscv"]
  gen_types := fun _ => .ok ["types.rs"]
  gen_instr := fun _ _ => .ok ["opcodes.rs"]
  gen_settings := fun _ _ => .ok ["settings.rs"]
  gen_encoding := fun _ _ => .ok ["encoding-riscv.rs"]
  gen_build_deps := .ok ["build-deps.txt"]

/-- Implementations where the type catalog is written and then the
instruction stage raises, exercising a mid-pipeline failure. -/
def failInstrImpls : StageImpls :=
  { okImpls with gen_instr := fun _ _ => .error (.typeInferenceError "iadd") }

/-- Exhaustive case analysis of a driver run: exactly one stage is the
first to fail (six possibilities), or every stage succeeds. In each case
the trace, the accumulated sink writes and the result are determined. -/
lemma build_cases (impls : StageImpls) (d : Option String) :
    (∃ (e : GenError), impls.all_isas = Except.error e ∧
      build impls d = ⟨[⟨.isaRegistry, none, none⟩], [], .error e⟩) ∨
    (∃ (isas : List IsaId) (e : GenError), impls.all_isas = Except.ok isas ∧
      build impls d = ⟨[⟨.isaRegistry, none, none⟩, ⟨.genTypes, none, some d⟩],
        [], .error e⟩) ∨
    (∃ (isas : List IsaId) (e : GenError) (w1 : List String), impls.all_isas = Except.ok isas ∧
      build impls d = ⟨[⟨.isaRegistry, none, none⟩, ⟨.genTypes, none, some d⟩,
        ⟨.genInstr, some isas, some d⟩],
        w1.map (Stage.genTypes, ·), .error e⟩) ∨
    (∃ (isas : List IsaId) (e : GenError) (w1 w2 : List String), impls.all_isas = Except.ok isas ∧
      build impls d = ⟨[⟨.isaRegistry, none, none⟩, ⟨.genTypes, none, some d⟩,
        ⟨.genInstr, some isas, some d⟩, ⟨.genSettings, some isas, some d⟩],
        w1.map (Stage.genTypes, ·) ++ w2.map (Stage.genInstr, ·), .error e⟩) ∨
    (∃ (isas : List IsaId) (e : GenError) (w1 w2 w3 : List String), impls.all_isas = Except.ok isas ∧
      build impls d = ⟨[⟨.isaRegistry, none, none⟩, ⟨.genTypes, none, some d⟩,
        ⟨.genInstr, some isas, some d⟩, ⟨.genSettings, some isas, some d⟩,
        ⟨.genEncoding, some isas, some d⟩],
        w1.map (Stage.genTypes, ·) ++ w2.map (Stage.genInstr, ·) ++
          w3.map (Stage.genSettings, ·), .error e⟩) ∨
    (∃ (isas : List IsaId) (e : GenError) (w1 w2 w3 w4 : List String), impls.all_isas = Except.ok isas ∧
      build impls d = ⟨[⟨.isaRegistry, none, none⟩, ⟨.genTypes, none, some d⟩,
        ⟨.genInstr, some isas, some d⟩, ⟨.genSettings, some isas, some d⟩,
        ⟨.genEncoding, some isas, some d⟩, ⟨.genBuildDeps, none, none⟩],
        w1.map (Stage.genTypes, ·) ++ w2.map (Stage.genInstr, ·) ++
          w3.map (Stage.genSettings, ·) ++ w4.map (Stage.genEncoding, ·),
        .error e⟩) ∨
    (∃ (isas : List IsaId) (w1 w2 w3 w4 w5 : List String), impls.all_isas = Except.ok isas ∧
      build impls d = ⟨[⟨.isaRegistry, none, none⟩, ⟨.genTypes, none, some d⟩,
        ⟨.genInstr, some isas, some d⟩, ⟨.genSettings, some isas, some d⟩,
        ⟨.genEncoding, some isas, some d⟩, ⟨.genBuildDeps, none, none⟩],
        w1.map (Stage.genTypes, ·) ++ w2.map (Stage.genInstr, ·) ++
          w3.map (Stage.genSettings, ·) ++ w4.map (Stage.genEncoding, ·) ++
          w5.map (Stage.genBuildDeps, ·),
        Except.ok ()⟩) := by
  rcases h0 : impls.all_isas with e0 | isas
  · exact Or.inl ⟨e0, rfl, by simp [build, h0]⟩
  rcases h1 : impls.gen_types d with e1 | w1
  · exact Or.inr (Or.inl ⟨isas, e1, rfl, by simp [build, h0, h1]⟩)
  rcases h2 : impls.gen_instr isas d with e2 | w2
  · exact Or.inr (Or.inr (Or.inl ⟨isas, e2, w1, rfl, by simp [build, h0, h1, h2]⟩))
  rcases h3 : impls.gen_settings isas d with e3 | w3
  · exact Or.inr (Or.inr (Or.inr (Or.inl
      ⟨isas, e3, w1, w2, rfl, by simp [build, h0, h1, h2, h3]⟩)))
  rcases h4 : impls.gen_encoding isas d with e4 | w4
  · exact Or.inr (Or.inr (Or.inr (Or.inr (Or.inl
      ⟨isas, e4, w1, w2, w3, rfl, by simp [build, h0, h1, h2, h3, h4]⟩))))
  rcases h5 : impls.gen_build_deps with e5 | w5
  · exact Or.inr (Or.inr (Or.inr (Or.inr (Or.inr (Or.inl
      ⟨isas, e5, w1, w2, w3, w4, rfl, by simp [build, h0, h1, h2, h3, h4, h5]⟩)))))
  · exact Or.inr (Or.inr (Or.inr (Or.inr (Or.inr (Or.inr
      ⟨isas, w1, w2, w3, w4, w5, rfl, by simp [build, h0, h1, h2, h3, h4, h5]⟩)))))

/-- Arguments of every stage invocation in a run: `isa.all_isas()` and
`gen_build_deps.generate()` are called with nothing, `gen_types.generate`
with `out_dir` only, and the three ISA-consuming generators with the
resolved ISA list and `out_dir`. -/
lemma build_args (impls : StageImpls) (d : Option String) :
    ∀ c ∈ (build impls d).trace,
      ((c.stage = .isaRegistry ∨ c.stage = .genBuildDeps) →
        c.isasArg = none ∧ c.outDirArg = none) ∧
      (c.stage = .genTypes → c.isasArg = none ∧ c.outDirArg = some d) ∧
      ((c.stage = .genInstr ∨ c.stage = .genSettings ∨ c.stage = .genEncoding) →
        c.outDirArg = some d ∧
          ∃ isas, impls.all_isas = Except.ok isas ∧ c.isasArg = some isas) := by
  rcases build_cases impls d with ⟨e, h0, hb⟩ | ⟨isas, e, h0, hb⟩
    | ⟨isas, e, w1, h0, hb⟩ | ⟨isas, e, w1, w2, h0, hb⟩
    | ⟨isas, e, w1, w2, w3, h0, hb⟩ | ⟨isas, e, w1, w2, w3, w4, h0, hb⟩
    | ⟨isas, w1, w2, w3, w4, w5, h0, hb⟩ <;>
  · intro c hc
    rw [hb] at hc
    fin_cases hc <;> simp_all

/-- C1: the driver executes the stages in strict dependency order — ISA
registry resolution first, then the Type Catalog, Instruction Table,
Settings Table and Encoding Table generators, with the Build-Dependency
Emitter last: every trace is a prefix of that fixed order, and a
successful run executes exactly that order, so no stage ever runs before
all stages preceding it (its dependencies included) have completed. -/
theorem driver_stage_order (impls : StageImpls) (d : Option String) :
    (build impls d).trace.map StageCall.stage
      = pipelineOrder.take ((build impls d).trace.length) ∧
    ((build impls d).result = Except.ok () →
      (build impls d).trace.map StageCall.stage = pipelineOrder) := by
  rcases build_cases impls d with ⟨e, h0, hb⟩ | ⟨isas, e, h0, hb⟩
    | ⟨isas, e, w1, h0, hb⟩ | ⟨isas, e, w1, w2, h0, hb⟩
    | ⟨isas, e, w1, w2, w3, h0, hb⟩ | ⟨isas, e, w1, w2, w3, w4, h0, hb⟩
    | ⟨isas, w1, w2, w3, w4, w5, h0, hb⟩ <;>
  rw [hb] <;> simp [pipelineOrder]

/-- Witness for C1 at a fully succeeding run. -/
theorem driver_stage_order_witness :
    (build okImpls (some "out")).result = Except.ok () ∧
    (build okImpls (some "out")).trace.map StageCall.stage = pipelineOrder :=
  ⟨rfl, (driver_stage_order okImpls (some "out")).2 rfl⟩

/-- C4: when a run fails, no stage ran twice (no retry) and every stage
listed after the point where the trace stops was never executed: the first
fatal error aborts the remaining work and propagates as the run's result. -/
theorem driver_abort_on_first_error (impls : StageImpls) (d : Option String)
    (e : GenError) (h : (build impls d).result = Except.error e) :
    ((build impls d).trace.map StageCall.stage).Nodup ∧
    ∀ s ∈ pipelineOrder.drop ((build impls d).trace.length),
      s ∉ (build impls d).trace.map StageCall.stage := by
  rcases build_cases impls d with ⟨e0, h0, hb⟩ | ⟨isas, e0, h0, hb⟩
    | ⟨isas, e0, w1, h0, hb⟩ | ⟨isas, e0, w1, w2, h0, hb⟩
    | ⟨isas, e0, w1, w2, w3, h0, hb⟩ | ⟨isas, e0, w1, w2, w3, w4, h0, hb⟩
    | ⟨isas, w1, w2, w3, w4, w5, h0, hb⟩ <;>
  rw [hb] at h ⊢ <;> simp_all [pipelineOrder]

/-- Witness for C4 at a run failing in the instruction stage. -/
theorem driver_abort_on_first_error_witness :
    (build failInstrImpls (some "out")).result
        = Except.error (GenError.typeInferenceError "iadd") ∧
    (((build failInstrImpls (some "out")).trace.map StageCall.stage).Nodup ∧
      ∀ s ∈ pipelineOrder.drop ((build failInstrImpls (some "out")).trace.length),
        s ∉ (build failInstrImpls (some "out")).trace.map StageCall.stage) :=
  ⟨rfl, driver_abort_on_first_error failInstrImpls (some "out") _ rfl⟩

/-- C2 counterexample: a run in which the instruction stage fails after the
type catalog stage has already written its artifact: the run fails, yet the
output sink received a write — the write is not all-or-nothing. -/
theorem sink_write_on_failure_cex :
    (∃ e, (build failInstrImpls (some "out")).result = Except.error e) ∧
    (build failInstrImpls (some "out")).writes ≠ [] :=
  ⟨⟨GenError.typeInferenceError "iadd", rfl⟩, by decide⟩

/-- C2 (amended): on a mid-pipeline failure every sink write that did occur
was made by a stage that completed before the failing one (in particular the
dependency manifest is never among them), but those earlier writes are not
rolled back: the sink may hold a partial set of artifacts. -/
theorem sink_writes_on_failure (impls : StageImpls) (d : Option String)
    (e : GenError) (h : (build impls d).result = Except.error e) :
    ∀ p ∈ (build impls d).writes,
      p.1 ∈ ((build impls d).trace.map StageCall.stage).dropLast ∧
      p.1 ≠ Stage.genBuildDeps := by
  rcases build_cases impls d with ⟨e0, h0, hb⟩ | ⟨isas, e0, h0, hb⟩
    | ⟨isas, e0, w1, h0, hb⟩ | ⟨isas, e0, w1, w2, h0, hb⟩
    | ⟨isas, e0, w1, w2, w3, h0, hb⟩ | ⟨isas, e0, w1, w2, w3, w4, h0, hb⟩
    | ⟨isas, w1, w2, w3, w4, w5, h0, hb⟩ <;>
  rw [hb] at h ⊢ <;>
  simp_all [List.forall_mem_append, List.forall_mem_map, List.dropLast] <;>
  (intro a b hab
   casesm* _ ∨ _, _ ∧ _ <;> subst_vars <;> simp)

/-- Witness for the amended C2 at a run failing in the instruction stage. -/
theorem sink_writes_on_failure_witness :
    (build failInstrImpls (some "out")).result
        = Except.error (GenError.typeInferenceError "iadd") ∧
    (Stage.genTypes, "types.rs") ∈ (build failInstrImpls (some "out")).writes ∧
    (Stage.genTypes ∈ ((build failInstrImpls (some "out")).trace.map
        StageCall.stage).dropLast ∧ Stage.genTypes ≠ Stage.genBuildDeps) :=
  ⟨rfl, by decide,
    sink_writes_on_failure failInstrImpls (some "out")
      (GenError.typeInferenceError "iadd") rfl (Stage.genTypes, "types.rs")
      (by decide)⟩

/-- C3 counterexample: in a fully successful run the Type Catalog stage (and
likewise the Build-Dependency Emitter) runs after ISA-registry resolution
yet is invoked without the resolved ISA list. -/
theorem isa_fanout_cex :
    ¬ ∀ c ∈ (build okImpls (some "out")).trace,
        c.stage ≠ Stage.isaRegistry → c.isasArg.isSome = true := by
  decide

/-- C3 (amended): the Instruction Table, Settings Table and Encoding Table
generators receive the resolved ISA list; the Type Catalog Builder and the
Build-Dependency Emitter, though they also run after ISA-registry
resolution, are invoked without it. -/
theorem isa_fanout_amended (impls : StageImpls) (d : Option String)
    (isas : List IsaId) (h : impls.all_isas = Except.ok isas) :
    ∀ c ∈ (build impls d).trace,
      ((c.stage = Stage.genInstr ∨ c.stage = Stage.genSettings ∨
          c.stage = Stage.genEncoding) → c.isasArg = some isas) ∧
      ((c.stage = Stage.genTypes ∨ c.stage = Stage.genBuildDeps) →
        c.isasArg = none) := by
  intro c hc
  have ha := build_args impls d c hc
  constructor
  · intro hs
    obtain ⟨-, isas', h', hi⟩ := ha.2.2 hs
    rw [h] at h'
    injection h' with h''
    rw [hi, ← h'']
  · rintro (hs | hs)
    · exact (ha.2.1 hs).1
    · exact (ha.1 (Or.inr hs)).1

/-- Witness for the amended C3 at the instruction-stage call of a
successful run. -/
theorem isa_fanout_amended_witness :
    okImpls.all_isas = Except.ok ["riscv"] ∧
    (⟨Stage.genInstr, some ["riscv"], some (some "out")⟩ : StageCall)
        ∈ (build okImpls (some "out")).trace ∧
    (⟨Stage.genInstr, some ["riscv"], some (some "out")⟩ : StageCall).isasArg
        = some ["riscv"] :=
  ⟨rfl, by decide,
    (isa_fanout_amended okImpls (some "out") ["riscv"] rfl _ (by decide)).1
      (Or.inl rfl)⟩

/-- C5: resolving the ISA registry fails with a ConfigurationError when the
declared list is empty or holds duplicate identifiers, and otherwise
returns the declared list itself, in its declared order. -/
theorem all_isas_registry_spec (declared : List IsaId) :
    (declared = [] →
      ∃ msg, all_isas declared = Except.error (GenError.configurationError msg)) ∧
    (¬ declared.Nodup →
      ∃ msg, all_isas declared = Except.error (GenError.configurationError msg)) ∧
    (declared ≠ [] → declared.Nodup → all_isas declared = Except.ok declared) := by
  refine ⟨?_, ?_, ?_⟩
  · rintro rfl
    exact ⟨"ISA list is empty", rfl⟩
  · intro hnd
    have hne : declared ≠ [] := by rintro rfl; exact hnd List.nodup_nil
    exact ⟨"duplicate ISA identifier", by simp [all_isas, hne, hnd]⟩
  · intro hne hnd
    simp [all_isas, hne, hnd]

/-- Witness for C5 on a duplicate list and on a well-formed list. -/
theorem all_isas_registry_spec_witness :
    (¬ (["riscv", "riscv"] : List IsaId).Nodup ∧
      ∃ msg, all_isas ["riscv", "riscv"]
        = Except.error (GenError.configurationError msg)) ∧
    ((["riscv", "intel"] : List IsaId) ≠ [] ∧
      (["riscv", "intel"] : List IsaId).Nodup ∧
      all_isas ["riscv", "intel"] = Except.ok ["riscv", "intel"]) :=
  ⟨⟨by decide, (all_isas_registry_spec ["riscv", "riscv"]).2.1 (by decide)⟩,
   ⟨by decide, by decide,
     (all_isas_registry_spec ["riscv", "intel"]).2.2 (by decide) (by decide)⟩⟩

/-- C6: the parser declares exactly one option, `--out-dir`, and the run's
exit code is 0 exactly when every stage succeeded and non-zero exactly when
some stage failed. -/
theorem cli_surface_exit_codes :
    parserOptions = ["--out-dir"] ∧ parserOptions.length = 1 ∧
    ∀ (impls : StageImpls) (d : Option String),
      (exitCode (build impls d) = 0 ↔ (build impls d).result = Except.ok ()) ∧
      (exitCode (build impls d) ≠ 0 ↔
        ∃ e, (build impls d).result = Except.error e) := by
  refine ⟨rfl, rfl, ?_⟩
  intro impls d
  rcases hr : (build impls d).result with e | u
  · simp [exitCode, hr]
  · cases u
    simp [exitCode, hr]

/-- C7: the driver is deterministic: parsing the same argv twice and
running the pipeline twice over the same stage implementations yields the
same sink writes, the same result (the identical error if it fails) and
the same exit code. -/
theorem driver_deterministic (impls : StageImpls) (argv : List String)
    (d1 d2 : Option String) (h1 : parseArgs argv none = Except.ok d1)
    (h2 : parseArgs argv none = Except.ok d2) :
    (build impls d1).writes = (build impls d2).writes ∧
    (build impls d1).result = (build impls d2).result ∧
    exitCode (build impls d1) = exitCode (build impls d2) := by
  rw [h1] at h2
  injection h2 with h
  subst h
  exact ⟨rfl, rfl, rfl⟩

/-- Witness for C7 at a concrete argv and a succeeding run. -/
theorem driver_deterministic_witness :
    parseArgs ["--out-dir", "out"] none = Except.ok (some "out") ∧
    ((build okImpls (some "out")).writes = (build okImpls (some "out")).writes ∧
     (build okImpls (some "out")).result = (build okImpls (some "out")).result ∧
     exitCode (build okImpls (some "out")) = exitCode (build okImpls (some "out"))) :=
  ⟨rfl, driver_deterministic okImpls ["--out-dir", "out"]
    (some "out") (some "out") rfl rfl⟩

/-- C8: `gen_build_deps.generate()` is invoked with no arguments: neither
the resolved ISA list nor the output directory is passed to it. -/
theorem build_deps_no_args (impls : StageImpls) (d : Option String) :
    ∀ c ∈ (build impls d).trace, c.stage = Stage.genBuildDeps →
      c.isasArg = none ∧ c.outDirArg = none := by
  intro c hc hs
  exact (build_args impls d c hc).1 (Or.inr hs)

/-- Witness for C8 at the emitter call of a successful run. -/
theorem build_deps_no_args_witness :
    (⟨Stage.genBuildDeps, none, none⟩ : StageCall)
        ∈ (build okImpls (some "out")).trace ∧
    ((⟨Stage.genBuildDeps, none, none⟩ : StageCall).isasArg = none ∧
     (⟨Stage.genBuildDeps, none, none⟩ : StageCall).outDirArg = none) :=
  ⟨by decide,
    build_deps_no_args okImpls (some "out") ⟨Stage.genBuildDeps, none, none⟩
      (by decide) rfl⟩

/-- C9: when `--out-dir` is omitted the parse succeeds with `None`, and that
`None` is what the driver passes, unchanged, to the Type, Instruction,
Settings and Encoding generators. -/
theorem out_dir_default_none (impls : StageImpls) :
    parseArgs [] none = Except.ok none ∧
    ∀ c ∈ (build impls none).trace,
      (c.stage = Stage.genTypes ∨ c.stage = Stage.genInstr ∨
        c.stage = Stage.genSettings ∨ c.stage = Stage.genEncoding) →
      c.outDirArg = some none := by
  refine ⟨rfl, ?_⟩
  intro c hc hs
  have ha := build_args impls none c hc
  rcases hs with hs | hs
  · exact (ha.2.1 hs).2
  · exact (ha.2.2 hs).1

/-- Witness for C9 at the type-catalog call of a run with no `--out-dir`. -/
theorem out_dir_default_none_witness :
    (⟨Stage.genTypes, none, some none⟩ : StageCall)
        ∈ (build okImpls none).trace ∧
    (⟨Stage.genTypes, none, some none⟩ : StageCall).outDirArg = some none :=
  ⟨by decide,
    (out_dir_default_none okImpls).2 ⟨Stage.genTypes, none, some none⟩
      (by decide) (Or.inl rfl)⟩

/-- C10: the ISA registry is resolved exactly once in every run, and the one
resolved list is what the Instruction Table, Settings Table and Encoding
Table generators all receive. -/
theorem isa_registry_resolved_once (impls : StageImpls) (d : Option String)
    (isas : List IsaId) (h : impls.all_isas = Except.ok isas) :
    ((build impls d).trace.map StageCall.stage).count Stage.isaRegistry = 1 ∧
    ∀ c ∈ (build impls d).trace,
      (c.stage = Stage.genInstr ∨ c.stage = Stage.genSettings ∨
        c.stage = Stage.genEncoding) → c.isasArg = some isas := by
  constructor
  · rcases build_cases impls d with ⟨e0, h0, hb⟩ | ⟨isas0, e0, h0, hb⟩
      | ⟨isas0, e0, w1, h0, hb⟩ | ⟨isas0, e0, w1, w2, h0, hb⟩
      | ⟨isas0, e0, w1, w2, w3, h0, hb⟩ | ⟨isas0, e0, w1, w2, w3, w4, h0, hb⟩
      | ⟨isas0, w1, w2, w3, w4, w5, h0, hb⟩ <;>
    rw [hb] <;> simp [List.count_cons]
  · intro c hc hs
    obtain ⟨-, isas', h', hi⟩ := (build_args impls d c hc).2.2 hs
    rw [h] at h'
    injection h' with h''
    rw [hi, ← h'']

/-- Witness for C10 at a successful run over the one-ISA registry. -/
theorem isa_registry_resolved_once_witness :
    okImpls.all_isas = Except.ok ["riscv"] ∧
    ((build okImpls (some "out")).trace.map StageCall.stage).count
      Stage.isaRegistry = 1 :=
  ⟨rfl, (isa_registry_resolved_once okImpls (some "out") ["riscv"] rfl).1⟩

end Cretonne
